import Mathlib

/-!
Verification of the heimgeist coherence scanner
(`scripts/heimgeist_sichter_kohärenz.py`).

The scanner consumes one parsed JSON snapshot document and produces a
`Report`: a list of graded findings plus an uncertainty assessment.  We embed
the parsed JSON value space, the evaluator (`build_report` with its sub-rules
`_meta_sanity`, `_heuristic_expected_markers`, `_uncertainty`,
`_count_duplicates`) and the structured-data mirror of the report, and prove
the specified properties about them.

Python `None` is identified with JSON `null` (they are the same object after
`json.load`).  Python numeric dynamics are kept: `bool` is a subclass of
`int`, so `isinstance(x, int)` and `isinstance(x, (int, float))` accept
booleans.  Numeric arithmetic is modelled exactly over `ℚ`.
A call that raises in Python (attribute access on a non-dict) is modelled by
`Option`/`none`.
-/

namespace Heimgeist

/-- Parsed JSON value, as produced by `json.load`. -/
inductive JVal where
  | jnull : JVal
  | jbool : Bool → JVal
  | jint : Int → JVal
  | jfloat : ℚ → JVal
  | jstr : String → JVal
  | jarr : List JVal → JVal
  | jobj : List (String × JVal) → JVal
deriving Repr

/-- Association list standing for a parsed JSON object (Python dict). -/
abbrev JObj := List (String × JVal)

/-- Python `d.get(k)` on a dict: first binding of the key, if any. -/
def jget (kvs : JObj) (k : String) : Option JVal :=
  List.lookup k kvs

/-- Python `isinstance(x, (int, float))`, returning the numeric value.
`bool` is a subclass of `int`, so `True`/`False` count as `1`/`0`. -/
def pyNumQ : JVal → Option ℚ
  | .jint n => some (n : ℚ)
  | .jfloat q => some q
  | .jbool b => some (if b then 1 else 0)
  | _ => none

/-- Python `isinstance(x, int)` (booleans included), as the integer value. -/
def pyIntZ : JVal → Option Int
  | .jint n => some n
  | .jbool b => some (if b then 1 else 0)
  | _ => none

/-- Python truthiness of a JSON value. -/
def pyTruthy : JVal → Bool
  | .jnull => false
  | .jbool b => b
  | .jint n => !(n == 0)
  | .jfloat q => !(q == 0)
  | .jstr s => !(s == "")
  | .jarr xs => !xs.isEmpty
  | .jobj kvs => !kvs.isEmpty

/-- Python `x == "s"` for a string literal: only a string compares equal. -/
def isJStr (v : JVal) (s : String) : Bool :=
  match v with
  | .jstr t => t == s
  | _ => false

mutual
/-- Python `str(x)` for values met in f-string interpolations.  Floats
render here via the exact rational's `toString`, not CPython's
shortest-roundtrip float repr; the rendering reaches only finding detail
texts. -/
def pyStr : JVal → String
  | .jnull => "None"
  | .jbool true => "True"
  | .jbool false => "False"
  | .jint n => toString n
  | .jfloat q => toString q
  | .jstr s => s
  | .jarr xs => "[" ++ String.intercalate ", " (pyStrList xs) ++ "]"
  | .jobj kvs => "\x7b" ++ String.intercalate ", " (pyStrObj kvs) ++ "\x7d"

/-- Python `repr` of list elements, with strings quoted. -/
def pyStrList : List JVal → List String
  | [] => []
  | v :: vs => pyReprStr v :: pyStrList vs

/-- Python `repr` of dict entries. -/
def pyStrObj : List (String × JVal) → List String
  | [] => []
  | (k, v) :: kvs => (pyReprStr (.jstr k) ++ ": " ++ pyReprStr v) :: pyStrObj kvs

/-- Python `repr(x)`: like `str`, but strings carry quotes. -/
def pyReprStr : JVal → String
  | .jstr s => "'" ++ s ++ "'"
  | v => pyStr v
end

/-- Source `_safe_get(d, *keys, default=default)`: nested lookup that
returns the default on a missing key or a non-dict intermediate value. -/
def safeGetD (d : JVal) (keys : List String) (dflt : JVal) : JVal :=
  match keys with
  | [] => d
  | k :: ks =>
    match d with
    | .jobj kvs =>
      match jget kvs k with
      | some v => safeGetD v ks dflt
      | none => dflt
    | _ => dflt

/-- Source `_safe_get` with its default `None`. -/
def safeGet (d : JVal) (keys : List String) : JVal :=
  safeGetD d keys .jnull

/-- Source `_list_files(doc)`: the `files` entry if it is a list, keeping
only the dict entries. -/
def listFiles (kvs : JObj) : List JObj :=
  match jget kvs "files" with
  | some (.jarr xs) =>
    xs.filterMap fun x => match x with | .jobj f => some f | _ => none
  | _ => []

/-- Source `_path_set(files)`: the string values of the `path` fields
(Python uses a set; only membership is ever consumed, so a list keeping
every string occurrence is an equivalent embedding). -/
def pathStrings (files : List JObj) : List String :=
  files.filterMap fun f =>
    match jget f "path" with
    | some (.jstr s) => some s
    | _ => none

/-- Python `s.startswith(pre)`. -/
def strStartsWith (s pre : String) : Bool :=
  pre.data.isPrefixOf s.data

/-- Python `s.rstrip("/")`: remove every trailing slash. -/
def rstripSlash (s : String) : String :=
  String.mk (s.data.reverse.dropWhile (· == '/')).reverse

/-- Characters stripped by Python `str.strip()`: code points with the
Unicode whitespace property, including `\x0b`, `\x0c`, the C1 separators
and the Unicode space block. -/
def pyIsSpace (c : Char) : Bool :=
  decide (c.toNat ∈ ([9, 10, 11, 12, 13, 28, 29, 30, 31, 32, 133, 160, 5760,
    8232, 8233, 8239, 8287, 12288] : List Nat)) ||
    decide (8192 ≤ c.toNat ∧ c.toNat ≤ 8202)

/-- Python `s.strip()`: remove leading and trailing whitespace. -/
def pyStrip (s : String) : String :=
  String.mk ((s.data.dropWhile pyIsSpace).reverse.dropWhile pyIsSpace).reverse

/-- Python `s.lower()`. -/
def strLower (s : String) : String :=
  String.mk (s.data.map Char.toLower)

/-- Lexicographic comparison of character lists by code point, the order
Python `sorted` uses on strings. -/
def charsLe : List Char → List Char → Bool
  | [], _ => true
  | _ :: _, [] => false
  | a :: as, b :: bs =>
    if a.toNat < b.toNat then true
    else if b.toNat < a.toNat then false
    else charsLe as bs

/-- Lexicographic `≤` on strings by code point. -/
def strLeB (a b : String) : Bool :=
  charsLe a.data b.data

/-- Lexicographic order on strings as a proposition. -/
def strLe (a b : String) : Prop := strLeB a b = true

/-- Sorted insertion for `sortStrings`. -/
def insertStr (p : String) : List String → List String
  | [] => [p]
  | q :: qs => if strLeB p q then p :: q :: qs else q :: insertStr p qs

/-- Python `sorted` on a collection of strings (insertion sort; any stable
comparison sort agrees on the duplicate-free input it is applied to). -/
def sortStrings : List String → List String
  | [] => []
  | p :: ps => insertStr p (sortStrings ps)

/-- Loop body of `_count_duplicates`: walk the string paths with a `seen`
set and a `dups` set (sets kept as duplicate-free lists). -/
def dupLoop : List String → List String → List String → List String
  | [], _, dups => dups
  | p :: ps, seen, dups =>
    dupLoop ps (if p ∈ seen then seen else p :: seen)
      (if p ∈ seen then (if p ∈ dups then dups else p :: dups) else dups)

/-- Source `_count_duplicates(files)`: the paths occurring more than once,
sorted lexicographically (Python `sorted` on a set of strings). -/
def countDuplicates (files : List JObj) : List String :=
  sortStrings (dupLoop (pathStrings files) [] [])

/-- A graded finding (source dataclass `Finding`). -/
structure Finding where
  severity : String
  code : String
  title : String
  detail : String
deriving Repr, DecidableEq

/-- Uncertainty assessment (the dict built by `_uncertainty`, whose shape is
fixed: score, causes, note). -/
structure Uncertainty where
  score : ℚ
  causes : List String
  note : String
deriving Repr, DecidableEq

/-- The report record (source dataclass `Report`).  `generated_at` is the
frozen clock value passed by the caller. -/
structure Report where
  generated_at : String
  agent : String
  input_path : String
  meta : JObj
  scope : String
  coverage_pct : Option JVal
  files_total : Option JVal
  findings : List Finding
  uncertainty : Uncertainty
deriving Repr

/-- Numeric test `isinstance(x, (int, float))` as a Boolean. -/
def pyIsNum (v : JVal) : Bool := (pyNumQ v).isSome

/-- Integer test `isinstance(x, int)` as a Boolean. -/
def pyIsInt (v : JVal) : Bool := (pyIntZ v).isSome

/-- Python `x is True`. -/
def isJTrue : JVal → Bool
  | .jbool true => true
  | _ => false

/-- Nested `_safe_get` on a document given as an object. -/
def docGet (kvs : JObj) (keys : List String) : JVal :=
  safeGet (.jobj kvs) keys

/-- Contract rule of `_meta_sanity` (code HG-SICHTER-010): fires when the
declared contract/version pair is not `wc-merge-agent`/`v1`. -/
def rule010 (kvs : JObj) : List Finding :=
  let contract := docGet kvs ["meta", "contract"]
  let ver := docGet kvs ["meta", "contract_version"]
  if isJStr contract "wc-merge-agent" && isJStr ver "v1" then []
  else
    [{ severity := "crit", code := "HG-SICHTER-010",
       title := "Unerwarteter Merge-Contract",
       detail := "Erwartet wc-merge-agent/v1, gefunden: " ++ pyStr contract ++
         "/" ++ pyStr ver ++ ". Ergebnis ist nur eingeschränkt interpretierbar." }]

/-- Coverage rule of `_meta_sanity` (code HG-SICHTER-011): fires when
`coverage.coverage_pct` is numeric and `< 95.0`. -/
def rule011 (kvs : JObj) : List Finding :=
  let coverage := docGet kvs ["coverage", "coverage_pct"]
  match pyNumQ coverage with
  | some q =>
    if q < 95 then
      [{ severity := "warn", code := "HG-SICHTER-011",
         title := "Coverage < 95%",
         detail := "Coverage " ++ pyStr coverage ++
           "%: Hohe Chance auf blinde Flecken. Befunde sind eher Tendenzen als Aussagen." }]
    else []
  | none => []

/-- Truncation rule of `_meta_sanity` (code HG-SICHTER-012): fires when
`meta.max_file_bytes` is an integer different from `0`. -/
def rule012 (kvs : JObj) : List Finding :=
  let mfb := docGet kvs ["meta", "max_file_bytes"]
  match pyIntZ mfb with
  | some z =>
    if z ≠ 0 then
      [{ severity := "warn", code := "HG-SICHTER-012",
         title := "Datei-Kürzung aktiv (max_file_bytes != 0)",
         detail := "max_file_bytes=" ++ pyStr mfb ++
           ". Das ist semantisch riskant (Teilwahrheiten). Split wäre besser." }]
    else []
  | none => []

/-- The `filters` value read by `_meta_sanity` via
`doc.get("meta", \x7b\x7d).get("filters", \x7b\x7d)`.  This access is NOT
`_safe_get`: when `meta` is present but not a dict, Python raises an
`AttributeError` (modelled as `none`). -/
def metaFilters (kvs : JObj) : Option JVal :=
  match jget kvs "meta" with
  | none => some (.jobj [])
  | some (.jobj m) => some ((jget m "filters").getD (.jobj []))
  | some _ => none

/-- Value `filters.get(k)` guarded by `isinstance(filters, dict)`. -/
def filterField (fl : JVal) (k : String) : JVal :=
  match fl with
  | .jobj fkvs => (jget fkvs k).getD .jnull
  | _ => .jnull

/-- Path-filter rule of `_meta_sanity` (code HG-SICHTER-013). -/
def rule013 (fl : JVal) : List Finding :=
  match filterField fl "path_filter" with
  | .jstr s =>
    if pyStrip s ≠ "" then
      [{ severity := "info", code := "HG-SICHTER-013",
         title := "Path-Filter aktiv",
         detail := "path_filter=" ++ pyReprStr (.jstr s) ++
           ". Marker können fehlen, weil sie außerhalb des Scope liegen." }]
    else []
  | _ => []

/-- Extension-filter rule of `_meta_sanity` (code HG-SICHTER-014). -/
def rule014 (fl : JVal) : List Finding :=
  match filterField fl "ext_filter" with
  | .jstr s =>
    if pyStrip s ≠ "" then
      [{ severity := "info", code := "HG-SICHTER-014",
         title := "Extension-Filter aktiv",
         detail := "ext_filter=" ++ pyReprStr (.jstr s) ++
           ". Struktur-Befunde sind ggf. verzerrt." }]
    else []
  | _ => []

/-- Detail text of the duplicate-path finding: the sorted duplicates,
capped at 50 entries, with an ellipsis marker when more exist. -/
def dupDetail (dups : List String) : String :=
  "Folgende Pfade sind mehrfach enthalten: " ++
    String.intercalate ", " (dups.take 50) ++
    (if dups.length > 50 then " …" else "")

/-- Duplicate-path rule of `_meta_sanity` (code HG-SICHTER-015). -/
def rule015 (files : List JObj) : List Finding :=
  let dups := countDuplicates files
  if dups.isEmpty then []
  else
    [{ severity := "crit", code := "HG-SICHTER-015",
       title := "Doppelte Dateipfade im Merge",
       detail := dupDetail dups }]

/-- Profile rule of `_meta_sanity` (code HG-SICHTER-016). -/
def rule016 (kvs : JObj) : List Finding :=
  match docGet kvs ["meta", "profile"] with
  | .jstr s =>
    if strLower s == "dev" || strLower s == "min" then
      [{ severity := "info", code := "HG-SICHTER-016",
         title := "Profil ist nicht maximal",
         detail := "profile=" ++ pyReprStr (.jstr s) ++
           ". Für Kohärenz-Checks ist max oft sinnvoller (weniger blinde Flecken)." }]
    else []
  | _ => []

/-- Scope rule of `_meta_sanity` (code HG-SICHTER-017): fires when `scope`
is not a string or is blank. -/
def rule017 (kvs : JObj) : List Finding :=
  match (jget kvs "scope").getD .jnull with
  | .jstr s =>
    if pyStrip s = "" then
      [{ severity := "warn", code := "HG-SICHTER-017",
         title := "Scope nicht angegeben",
         detail := "scope fehlt/leer. Mehrdeutigkeit steigt: Ist es ein Single-Repo- oder Multi-Repo-Snapshot?" }]
    else []
  | _ =>
    [{ severity := "warn", code := "HG-SICHTER-017",
       title := "Scope nicht angegeben",
       detail := "scope fehlt/leer. Mehrdeutigkeit steigt: Ist es ein Single-Repo- oder Multi-Repo-Snapshot?" }]

/-- The eight metadata-sanity rules of `_meta_sanity`, in their fixed
source order, as one concatenation. -/
def metaRules (kvs : JObj) (fl : JVal) (files : List JObj) : List Finding :=
  rule010 kvs ++ rule011 kvs ++ rule012 kvs ++ rule013 fl ++ rule014 fl ++
    rule015 files ++ rule016 kvs ++ rule017 kvs

/-- Source `_meta_sanity(doc, files)` as one function: `none` models the
`AttributeError` raised by the unguarded `filters` access before any finding
is appended. -/
def metaSanity (kvs : JObj) (files : List JObj) : Option (List Finding) :=
  (metaFilters kvs).map fun fl => metaRules kvs fl files

/-- Source `has_prefix(prefix)`: some observed path starts with the marker
directory (trailing slashes stripped) followed by `/`. -/
def hasPre (paths : List String) (pre : String) : Bool :=
  paths.any fun p => strStartsWith p (rstripSlash pre ++ "/")

/-- Marker rule for `.ai-context.yml` (code HG-SICHTER-001): exact file
match or directory-prefix match. -/
def marker001 (paths : List String) : List Finding :=
  if ".ai-context.yml" ∉ paths ∧ ¬hasPre paths ".ai-context.yml/" then
    [{ severity := "warn", code := "HG-SICHTER-001",
       title := "Kein .ai-context.yml sichtbar",
       detail := "Viele Heimgewebe-Repos nutzen .ai-context.yml als Orientierungsanker. Fehlt hier (oder wurde durch Filter ausgeschlossen)." }]
  else []

/-- Marker rule for the `.wgx/` directory (code HG-SICHTER-002):
directory-prefix match only. -/
def marker002 (paths : List String) : List Finding :=
  if ¬hasPre paths ".wgx/" then
    [{ severity := "warn", code := "HG-SICHTER-002",
       title := "Kein .wgx/ sichtbar",
       detail := "WGX-Motorik fehlt im Snapshot (oder wurde herausgefiltert). Falls das Repo zur Fleet gehört, ist das ein Drift-Signal." }]
  else []

/-- Marker rule for `contracts/` (code HG-SICHTER-003). -/
def marker003 (paths : List String) : List Finding :=
  if ¬hasPre paths "contracts/" then
    [{ severity := "info", code := "HG-SICHTER-003",
       title := "Kein contracts/ sichtbar",
       detail := "Nicht jedes Repo braucht Contracts. Für zentrale Repos kann das aber ein Hinweis auf semantische Entkopplung sein." }]
  else []

/-- Marker rule for `docs/` or `doc/` (code HG-SICHTER-004). -/
def marker004 (paths : List String) : List Finding :=
  if ¬hasPre paths "docs/" ∧ ¬hasPre paths "doc/" then
    [{ severity := "info", code := "HG-SICHTER-004",
       title := "Keine docs/ sichtbar",
       detail := "Dokumentation fehlt im Snapshot (oder wurde durch Filter ausgeschlossen). Das ist nicht per se falsch, aber erhöht Integrationsrisiko." }]
  else []

/-- Marker rule for `.github/workflows/` (code HG-SICHTER-005). -/
def marker005 (paths : List String) : List Finding :=
  if ¬hasPre paths ".github/workflows/" then
    [{ severity := "info", code := "HG-SICHTER-005",
       title := "Keine GitHub Workflows sichtbar",
       detail := "Kein CI sichtbar. Wenn das Repo produktiv ist, könnte das technische Schulden anzeigen – oder der Snapshot ist stark gefiltert." }]
  else []

/-- Source `_heuristic_expected_markers(paths)`: the five marker rules. -/
def markerFindings (paths : List String) : List Finding :=
  marker001 paths ++ marker002 paths ++ marker003 paths ++ marker004 paths ++
    marker005 paths

/-- Coverage driver of `_uncertainty`: coverage is numeric and `< 100.0`. -/
def uncCond1 (doc : JVal) : Bool :=
  match pyNumQ (safeGet doc ["coverage", "coverage_pct"]) with
  | some q => decide (q < 100)
  | none => false

/-- Filter driver of `_uncertainty`: `filters` is a dict and one of
`path_filter`/`ext_filter` is truthy. -/
def uncCond2 (doc : JVal) : Bool :=
  match safeGetD doc ["meta", "filters"] (.jobj []) with
  | .jobj fkvs =>
    pyTruthy ((jget fkvs "path_filter").getD .jnull) ||
      pyTruthy ((jget fkvs "ext_filter").getD .jnull)
  | _ => false

/-- Reduced-context driver of `_uncertainty`: `plan_only is True` or
`code_only is True`. -/
def uncCond3 (doc : JVal) : Bool :=
  isJTrue (safeGet doc ["meta", "plan_only"]) ||
    isJTrue (safeGet doc ["meta", "code_only"])

/-- Uncertainty score before the final clamp: baseline 0.18 plus the three
fixed increments. -/
def uncertaintyRaw (doc : JVal) : ℚ :=
  0.18 + (if uncCond1 doc then 0.10 else 0) +
    (if uncCond2 doc then 0.08 else 0) +
    (if uncCond3 doc then 0.12 else 0)

/-- Python `min(a, b)` on two numbers. -/
def pyMin (a b : ℚ) : ℚ := if a ≤ b then a else b

/-- Python `max(a, b)` on two numbers. -/
def pyMax (a b : ℚ) : ℚ := if a ≥ b then a else b

/-- Sentinel cause used when no increment fired. -/
def uncDefaultCause : String :=
  "Keine dominanten Ungewissheits-Treiber erkannt (aber Snapshot bleibt Snapshot)."

/-- Source `_uncertainty(doc)`: clamped score, causes (with sentinel
default) and the fixed note. -/
def uncertaintyOf (doc : JVal) : Uncertainty :=
  let causes :=
    (if uncCond1 doc then
      ["Coverage < 100%: Snapshot ist unvollständig (blinde Flecken)."] else []) ++
    (if uncCond2 doc then
      ["Filter aktiv: Struktur-Befunde können verzerrt sein."] else []) ++
    (if uncCond3 doc then
      ["plan_only/code_only: Semantischer Kontext fehlt teilweise."] else [])
  { score := pyMax 0 (pyMin 0.95 (uncertaintyRaw doc))
    causes := if causes.isEmpty then [uncDefaultCause] else causes
    note := "Ungewissheit ist hier produktiv: Sie verhindert, dass Snapshot-Befunde als Live-Wahrheit missverstanden werden." }

/-- Exact value m·2^e of a nonnegative binary floating-point number.  The
interpreter runs `_uncertainty`'s score accumulation on IEEE-754 doubles;
this type carries their values exactly (exponents unbounded: every value of
this program is normal and far from the range limits). -/
structure FloatVal where
  m : Nat
  e : Int
deriving Repr, DecidableEq

/-- Number of binary digits of `n`, with explicit fuel so that it reduces
inside the kernel. -/
def bitLenAux : Nat → Nat → Nat
  | 0, _ => 0
  | fuel + 1, n => if n = 0 then 0 else bitLenAux fuel (n / 2) + 1

/-- Number of binary digits of `n`. -/
def bitLen (n : Nat) : Nat := bitLenAux n n

/-- Round the exact value n·2^e to 53 significant bits, ties to even (the
discarded digits are exact, so no sticky information is lost). -/
def roundBits (n : Nat) (e : Int) : FloatVal :=
  let b := bitLen n
  if b ≤ 53 then ⟨n, e⟩
  else
    let s := b - 53
    let top := n / 2 ^ s
    let low := n % 2 ^ s
    let half := 2 ^ (s - 1)
    let m :=
      if low > half then top + 1
      else if low < half then top
      else if top % 2 = 0 then top else top + 1
    if m = 2 ^ 53 then ⟨2 ^ 52, e + s + 1⟩ else ⟨m, e + s⟩

/-- IEEE-754 double addition of two nonnegative values: align, add exactly,
round to 53 bits to nearest, ties to even. -/
def floatAdd (x y : FloatVal) : FloatVal :=
  let e := if x.e ≤ y.e then x.e else y.e
  roundBits (x.m * 2 ^ (x.e - e).toNat + y.m * 2 ^ (y.e - e).toNat) e

/-- Nearest double to the fraction a/b (round to nearest, ties to even):
the value is scaled to more than 53 significant bits and the division
remainder provides the sticky information for the tie test.  This is the
double the interpreter stores for a decimal literal a/b. -/
def roundQ (a b : Nat) : FloatVal :=
  if a = 0 then ⟨0, 0⟩
  else
    let shift := 61 + bitLen b
    let hi := a * 2 ^ shift / b
    let rem := a * 2 ^ shift % b
    let s := bitLen hi - 53
    let top := hi / 2 ^ s
    let low := hi % 2 ^ s
    let half := 2 ^ (s - 1)
    let m :=
      if low > half then top + 1
      else if low < half then top
      else if rem > 0 then top + 1
      else if top % 2 = 0 then top else top + 1
    if m = 2 ^ 53 then ⟨2 ^ 52, -(shift : Int) + s + 1⟩
    else ⟨m, -(shift : Int) + s⟩

/-- The double stored for the literal `0.18`. -/
def d018 : FloatVal := roundQ 18 100

/-- The double stored for the literal `0.10`. -/
def d010 : FloatVal := roundQ 10 100

/-- The double stored for the literal `0.08`. -/
def d008 : FloatVal := roundQ 8 100

/-- The double stored for the literal `0.12`. -/
def d012 : FloatVal := roundQ 12 100

/-- The double stored for the literal `0.95`. -/
def d095 : FloatVal := roundQ 95 100

/-- The double stored for the literal `0.0`. -/
def dzero : FloatVal := roundQ 0 1

/-- Score accumulation of `_uncertainty` under IEEE-754 double addition:
`score = 0.18`, then `score += 0.10 / 0.08 / 0.12` for each condition that
fired. -/
def scoreChain (b1 b2 b3 : Bool) : FloatVal :=
  let s0 := d018
  let s1 := if b1 then floatAdd s0 d010 else s0
  let s2 := if b2 then floatAdd s1 d008 else s1
  if b3 then floatAdd s2 d012 else s2

/-- The uncertainty score of `_uncertainty` before the clamp, under the
interpreter's IEEE-754 double arithmetic. -/
def uncertaintyRawF (doc : JVal) : FloatVal :=
  scoreChain (uncCond1 doc) (uncCond2 doc) (uncCond3 doc)

/-- Comparison `x <= y` of two float values, in integer arithmetic (float
comparison is exact on the represented values). -/
def fle (x y : FloatVal) : Bool :=
  let e := if x.e ≤ y.e then x.e else y.e
  x.m * 2 ^ (x.e - e).toNat ≤ y.m * 2 ^ (y.e - e).toNat

/-- Python `min` on two doubles: the first argument when it compares
less-or-equal. -/
def fmin (x y : FloatVal) : FloatVal := if fle x y then x else y

/-- Python `max` on two doubles: the first argument when it compares
greater-or-equal. -/
def fmax (x y : FloatVal) : FloatVal := if fle y x then x else y

/-- The clamped uncertainty score `max(0.0, min(0.95, score))` of
`_uncertainty`, under the interpreter's IEEE-754 double arithmetic. -/
def uncertaintyScoreF (doc : JVal) : FloatVal :=
  fmax dzero (fmin d095 (uncertaintyRawF doc))

/-- The rational value represented by a float value. -/
def FloatVal.toQ (x : FloatVal) : ℚ := (x.m : ℚ) * (2 : ℚ) ^ x.e

/-- Source `build_report(doc, input_path)`: `none` models an aborted
evaluation (root is not a mapping, or the unguarded `filters` access of
`_meta_sanity` raised).  `now` is the frozen clock value. -/
def buildReport (doc : JVal) (now inputPath : String) : Option Report :=
  match doc with
  | .jobj kvs =>
    let files := listFiles kvs
    let paths := pathStrings files
    let cov := docGet kvs ["coverage", "coverage_pct"]
    let ft := docGet kvs ["meta", "total_files"]
    (metaSanity kvs files).map fun ms =>
      { generated_at := now
        agent := "heimgeist.sichter.kohärenz"
        input_path := inputPath
        meta := match jget kvs "meta" with | some (.jobj m) => m | _ => []
        scope := match jget kvs "scope" with | some (.jstr s) => s | _ => ""
        coverage_pct := if pyIsNum cov then some cov else none
        files_total := if pyIsInt ft then some ft else none
        findings := ms ++ markerFindings paths
        uncertainty := uncertaintyOf (.jobj kvs) }
  | _ => none

/-- Serialization of a finding inside the structured-data mirror
(`asdict` on the `Finding` dataclass). -/
def findingToJson (f : Finding) : JVal :=
  .jobj [("severity", .jstr f.severity), ("code", .jstr f.code),
    ("title", .jstr f.title), ("detail", .jstr f.detail)]

/-- Serialization of the uncertainty assessment inside the mirror (the dict
built by `_uncertainty`; the score is a Python float). -/
def uncertaintyToJson (u : Uncertainty) : JVal :=
  .jobj [("uncertainty_score", .jfloat u.score),
    ("causes", .jarr (u.causes.map .jstr)), ("note", .jstr u.note)]

/-- The structured-data (JSON) mirror of a report:
`json.dumps(asdict(rep))`, embedded as the JSON tree it denotes. -/
def reportToJson (r : Report) : JVal :=
  .jobj [("generated_at", .jstr r.generated_at), ("agent", .jstr r.agent),
    ("input_path", .jstr r.input_path), ("meta", .jobj r.meta),
    ("scope", .jstr r.scope), ("coverage_pct", r.coverage_pct.getD .jnull),
    ("files_total", r.files_total.getD .jnull),
    ("findings", .jarr (r.findings.map findingToJson)),
    ("uncertainty", uncertaintyToJson r.uncertainty)]

/-- Modelled from the spec: reading a string field of the mirror back.  The
sources contain no parser for the mirror (only `main` writes it), so the
parse-back direction of the round-trip property is modelled here. -/
def strFromJson : JVal → Option String
  | .jstr s => some s
  | _ => none

/-- Modelled from the spec: reading an optional scalar field back; the
mirror stores an absent value as `null`. -/
def optFromJson : JVal → Option (Option JVal)
  | .jnull => some none
  | v => some (some v)

/-- Modelled from the spec: reading one finding of the mirror back. -/
def findingFromJson : JVal → Option Finding
  | .jobj kvs => do
    let sev ← (jget kvs "severity").bind strFromJson
    let c ← (jget kvs "code").bind strFromJson
    let t ← (jget kvs "title").bind strFromJson
    let d ← (jget kvs "detail").bind strFromJson
    some { severity := sev, code := c, title := t, detail := d }
  | _ => none

/-- Modelled from the spec: reading the uncertainty assessment back. -/
def uncertaintyFromJson : JVal → Option Uncertainty
  | .jobj kvs => do
    let sc ← match jget kvs "uncertainty_score" with
      | some (.jfloat q) => some q
      | _ => none
    let cs ← match jget kvs "causes" with
      | some (.jarr xs) => xs.mapM strFromJson
      | _ => none
    let nt ← (jget kvs "note").bind strFromJson
    some { score := sc, causes := cs, note := nt }
  | _ => none

/-- Modelled from the spec: parsing the structured-data mirror back into a
`Report` record (round-trip fidelity for the Report record). -/
def reportFromJson : JVal → Option Report
  | .jobj kvs => do
    let ga ← (jget kvs "generated_at").bind strFromJson
    let ag ← (jget kvs "agent").bind strFromJson
    let ip ← (jget kvs "input_path").bind strFromJson
    let me ← match jget kvs "meta" with
      | some (.jobj m) => some m
      | _ => none
    let sc ← (jget kvs "scope").bind strFromJson
    let cov ← (jget kvs "coverage_pct").bind optFromJson
    let ft ← (jget kvs "files_total").bind optFromJson
    let fs ← match jget kvs "findings" with
      | some (.jarr xs) => xs.mapM findingFromJson
      | _ => none
    let un ← (jget kvs "uncertainty").bind uncertaintyFromJson
    some ⟨ga, ag, ip, me, sc, cov, ft, fs, un⟩
  | _ => none

/-- Number of findings carrying a given code. -/
def countCode (fs : List Finding) (c : String) : Nat :=
  (fs.filter fun f => f.code == c).length

/-! Helper lemmas about the lexicographic order and `sortStrings`. -/

theorem charsLe_cons_iff {a b : Char} {as bs : List Char} :
    charsLe (a :: as) (b :: bs) = true ↔
      a.toNat < b.toNat ∨ (a.toNat = b.toNat ∧ charsLe as bs = true) := by
  rw [charsLe]
  split_ifs with h1 h2
  · exact iff_of_true rfl (.inl h1)
  · refine iff_of_false (by simp) (by rintro (h | ⟨h, _⟩) <;> omega)
  · constructor
    · intro h
      exact .inr ⟨by omega, h⟩
    · rintro (h | ⟨_, h⟩)
      · exact absurd h h1
      · exact h

theorem charsLe_total (as bs : List Char) :
    charsLe as bs = true ∨ charsLe bs as = true := by
  induction as generalizing bs with
  | nil => exact .inl rfl
  | cons a as ih =>
    cases bs with
    | nil => exact .inr rfl
    | cons b bs =>
      rcases Nat.lt_trichotomy a.toNat b.toNat with h | h | h
      · exact .inl (charsLe_cons_iff.mpr (.inl h))
      · rcases ih bs with h2 | h2
        · exact .inl (charsLe_cons_iff.mpr (.inr ⟨h, h2⟩))
        · exact .inr (charsLe_cons_iff.mpr (.inr ⟨h.symm, h2⟩))
      · exact .inr (charsLe_cons_iff.mpr (.inl h))

theorem charsLe_trans {as bs cs : List Char} (h1 : charsLe as bs = true)
    (h2 : charsLe bs cs = true) : charsLe as cs = true := by
  induction as generalizing bs cs with
  | nil => rfl
  | cons a as ih =>
    cases bs with
    | nil => simp [charsLe] at h1
    | cons b bs =>
      cases cs with
      | nil => simp [charsLe] at h2
      | cons c cs =>
        rcases charsLe_cons_iff.mp h1 with hab | ⟨hab, hab2⟩ <;>
          rcases charsLe_cons_iff.mp h2 with hbc | ⟨hbc, hbc2⟩
        · exact charsLe_cons_iff.mpr (.inl (hab.trans hbc))
        · exact charsLe_cons_iff.mpr (.inl (hbc ▸ hab))
        · exact charsLe_cons_iff.mpr (.inl (hab ▸ hbc))
        · exact charsLe_cons_iff.mpr (.inr ⟨hab.trans hbc, ih hab2 hbc2⟩)

theorem strLe_total (a b : String) : strLe a b ∨ strLe b a :=
  charsLe_total a.data b.data

theorem strLe_trans {a b c : String} (h1 : strLe a b) (h2 : strLe b c) :
    strLe a c :=
  charsLe_trans h1 h2

theorem insertStr_perm (p : String) (l : List String) :
    List.Perm (insertStr p l) (p :: l) := by
  induction l with
  | nil => rfl
  | cons q qs ih =>
    rw [insertStr]
    split
    · rfl
    · exact (List.Perm.cons q ih).trans (List.Perm.swap p q qs)

theorem mem_insertStr {q p : String} {l : List String} :
    q ∈ insertStr p l ↔ q = p ∨ q ∈ l := by
  rw [(insertStr_perm p l).mem_iff, List.mem_cons]

theorem sorted_insertStr {p : String} {l : List String}
    (h : List.Sorted strLe l) : List.Sorted strLe (insertStr p l) := by
  induction l with
  | nil => simp [insertStr, List.Sorted]
  | cons q qs ih =>
    rcases List.sorted_cons.mp h with ⟨hq, hqs⟩
    rw [insertStr]
    split
    · rename_i hle
      refine List.sorted_cons.mpr ⟨?_, h⟩
      intro x hx
      rcases List.mem_cons.mp hx with rfl | hx
      · exact hle
      · exact strLe_trans hle (hq x hx)
    · rename_i hle
      refine List.sorted_cons.mpr ⟨?_, ih hqs⟩
      intro x hx
      rcases mem_insertStr.mp hx with rfl | hx
      · rcases strLe_total q x with h2 | h2
        · exact h2
        · exact absurd h2 hle
      · exact hq x hx

theorem sortStrings_perm (l : List String) : List.Perm (sortStrings l) l := by
  induction l with
  | nil => rfl
  | cons p ps ih =>
    exact (insertStr_perm p (sortStrings ps)).trans (List.Perm.cons p ih)

theorem sorted_sortStrings (l : List String) :
    List.Sorted strLe (sortStrings l) := by
  induction l with
  | nil => simp [sortStrings, List.Sorted]
  | cons p ps ih => exact sorted_insertStr ih

/-! Helper lemmas about the duplicate-collection loop. -/

theorem mem_dupLoop {q : String} (ps : List String) (seen dups : List String) :
    q ∈ dupLoop ps seen dups ↔
      q ∈ dups ∨ (q ∈ seen ∧ 1 ≤ ps.count q) ∨ 2 ≤ ps.count q := by
  induction ps generalizing seen dups with
  | nil => simp [dupLoop]
  | cons p ps ih =>
    rw [dupLoop, ih]
    by_cases hq : q = p
    · subst hq
      rw [List.count_cons_self]
      by_cases hs : q ∈ seen
      · rw [if_pos hs, if_pos hs]
        constructor
        · intro _
          exact .inr (.inl ⟨hs, by omega⟩)
        · intro _
          left
          split
          · assumption
          · exact List.mem_cons_self q dups
      · rw [if_neg hs, if_neg hs]
        constructor
        · rintro (h | ⟨_, h1⟩ | h2)
          · exact .inl h
          · exact .inr (.inr (by omega))
          · exact .inr (.inr (by omega))
        · rintro (h | ⟨hmem, _⟩ | h2)
          · exact .inl h
          · exact absurd hmem hs
          · exact .inr (.inl ⟨List.mem_cons_self q seen, by omega⟩)
    · have h1 : (q ∈ if p ∈ seen then seen else p :: seen) ↔ q ∈ seen := by
        split
        · exact Iff.rfl
        · simp [List.mem_cons, hq]
      have h2 :
          (q ∈ if p ∈ seen then (if p ∈ dups then dups else p :: dups)
            else dups) ↔ q ∈ dups := by
        split
        · split
          · exact Iff.rfl
          · simp [List.mem_cons, hq]
        · exact Iff.rfl
      rw [List.count_cons_of_ne hq, h1, h2]

theorem mem_countDuplicates {q : String} (files : List JObj) :
    q ∈ countDuplicates files ↔ 2 ≤ (pathStrings files).count q := by
  rw [countDuplicates, (sortStrings_perm _).mem_iff, mem_dupLoop]
  simp

theorem sorted_countDuplicates (files : List JObj) :
    List.Sorted strLe (countDuplicates files) :=
  sorted_sortStrings _

/-! Per-rule facts: each sub-rule emits at most one finding, always with its
own fixed code and severity. -/

theorem mem_rule010 {kvs : JObj} {f : Finding} (hf : f ∈ rule010 kvs) :
    f.code = "HG-SICHTER-010" ∧ f.severity = "crit" := by
  unfold rule010 at hf
  dsimp only at hf
  split at hf
  · simp at hf
  · simp at hf
    subst hf
    exact ⟨rfl, rfl⟩

theorem mem_rule011 {kvs : JObj} {f : Finding} (hf : f ∈ rule011 kvs) :
    f.code = "HG-SICHTER-011" ∧ f.severity = "warn" := by
  unfold rule011 at hf
  dsimp only at hf
  split at hf
  · split at hf
    · simp at hf
      subst hf
      exact ⟨rfl, rfl⟩
    · simp at hf
  · simp at hf

theorem mem_rule012 {kvs : JObj} {f : Finding} (hf : f ∈ rule012 kvs) :
    f.code = "HG-SICHTER-012" ∧ f.severity = "warn" := by
  unfold rule012 at hf
  dsimp only at hf
  split at hf
  · split at hf
    · simp at hf
      subst hf
      exact ⟨rfl, rfl⟩
    · simp at hf
  · simp at hf

theorem mem_rule013 {fl : JVal} {f : Finding} (hf : f ∈ rule013 fl) :
    f.code = "HG-SICHTER-013" ∧ f.severity = "info" := by
  unfold rule013 at hf
  split at hf
  · split at hf
    · simp at hf
      subst hf
      exact ⟨rfl, rfl⟩
    · simp at hf
  · simp at hf

theorem mem_rule014 {fl : JVal} {f : Finding} (hf : f ∈ rule014 fl) :
    f.code = "HG-SICHTER-014" ∧ f.severity = "info" := by
  unfold rule014 at hf
  split at hf
  · split at hf
    · simp at hf
      subst hf
      exact ⟨rfl, rfl⟩
    · simp at hf
  · simp at hf

theorem mem_rule015 {files : List JObj} {f : Finding} (hf : f ∈ rule015 files) :
    f.code = "HG-SICHTER-015" ∧ f.severity = "crit" := by
  unfold rule015 at hf
  dsimp only at hf
  split at hf
  · simp at hf
  · simp at hf
    subst hf
    exact ⟨rfl, rfl⟩

theorem mem_rule016 {kvs : JObj} {f : Finding} (hf : f ∈ rule016 kvs) :
    f.code = "HG-SICHTER-016" ∧ f.severity = "info" := by
  unfold rule016 at hf
  split at hf
  · split at hf
    · simp at hf
      subst hf
      exact ⟨rfl, rfl⟩
    · simp at hf
  · simp at hf

theorem mem_rule017 {kvs : JObj} {f : Finding} (hf : f ∈ rule017 kvs) :
    f.code = "HG-SICHTER-017" ∧ f.severity = "warn" := by
  unfold rule017 at hf
  split at hf
  · split at hf
    · simp at hf
      subst hf
      exact ⟨rfl, rfl⟩
    · simp at hf
  · simp at hf
    subst hf
    exact ⟨rfl, rfl⟩

theorem mem_marker001 {paths : List String} {f : Finding}
    (hf : f ∈ marker001 paths) :
    f.code = "HG-SICHTER-001" ∧ f.severity = "warn" := by
  unfold marker001 at hf
  split at hf
  · simp at hf
    subst hf
    exact ⟨rfl, rfl⟩
  · simp at hf

theorem mem_marker002 {paths : List String} {f : Finding}
    (hf : f ∈ marker002 paths) :
    f.code = "HG-SICHTER-002" ∧ f.severity = "warn" := by
  unfold marker002 at hf
  split at hf
  · simp at hf
    subst hf
    exact ⟨rfl, rfl⟩
  · simp at hf

theorem mem_marker003 {paths : List String} {f : Finding}
    (hf : f ∈ marker003 paths) :
    f.code = "HG-SICHTER-003" ∧ f.severity = "info" := by
  unfold marker003 at hf
  split at hf
  · simp at hf
    subst hf
    exact ⟨rfl, rfl⟩
  · simp at hf

theorem mem_marker004 {paths : List String} {f : Finding}
    (hf : f ∈ marker004 paths) :
    f.code = "HG-SICHTER-004" ∧ f.severity = "info" := by
  unfold marker004 at hf
  split at hf
  · simp at hf
    subst hf
    exact ⟨rfl, rfl⟩
  · simp at hf

theorem mem_marker005 {paths : List String} {f : Finding}
    (hf : f ∈ marker005 paths) :
    f.code = "HG-SICHTER-005" ∧ f.severity = "info" := by
  unfold marker005 at hf
  split at hf
  · simp at hf
    subst hf
    exact ⟨rfl, rfl⟩
  · simp at hf

theorem countCode_append (xs ys : List Finding) (c : String) :
    countCode (xs ++ ys) c = countCode xs c + countCode ys c := by
  simp [countCode, List.filter_append]

theorem countCode_eq_zero {fs : List Finding} {c : String}
    (h : ∀ f ∈ fs, f.code ≠ c) : countCode fs c = 0 := by
  rw [countCode, List.length_eq_zero, List.filter_eq_nil_iff]
  intro f hf
  simpa using h f hf

theorem countCode_eq_zero_iff {fs : List Finding} {c : String} :
    countCode fs c = 0 ↔ ∀ f ∈ fs, f.code ≠ c := by
  rw [countCode, List.length_eq_zero, List.filter_eq_nil_iff]
  constructor
  · intro h f hf
    simpa using h f hf
  · intro h f hf
    simpa using h f hf

theorem mem_metaRules_code {kvs : JObj} {fl : JVal} {files : List JObj}
    {f : Finding} (hf : f ∈ metaRules kvs fl files) :
    f.code = "HG-SICHTER-010" ∨ f.code = "HG-SICHTER-011" ∨
    f.code = "HG-SICHTER-012" ∨ f.code = "HG-SICHTER-013" ∨
    f.code = "HG-SICHTER-014" ∨ f.code = "HG-SICHTER-015" ∨
    f.code = "HG-SICHTER-016" ∨ f.code = "HG-SICHTER-017" := by
  unfold metaRules at hf
  simp only [List.mem_append] at hf
  rcases hf with ((((((h | h) | h) | h) | h) | h) | h) | h
  · exact .inl (mem_rule010 h).1
  · exact .inr (.inl (mem_rule011 h).1)
  · exact .inr (.inr (.inl (mem_rule012 h).1))
  · exact .inr (.inr (.inr (.inl (mem_rule013 h).1)))
  · exact .inr (.inr (.inr (.inr (.inl (mem_rule014 h).1))))
  · exact .inr (.inr (.inr (.inr (.inr (.inl (mem_rule015 h).1)))))
  · exact .inr (.inr (.inr (.inr (.inr (.inr (.inl (mem_rule016 h).1))))))
  · exact .inr (.inr (.inr (.inr (.inr (.inr (.inr (mem_rule017 h).1))))))

theorem mem_markerFindings_code {paths : List String} {f : Finding}
    (hf : f ∈ markerFindings paths) :
    f.code = "HG-SICHTER-001" ∨ f.code = "HG-SICHTER-002" ∨
    f.code = "HG-SICHTER-003" ∨ f.code = "HG-SICHTER-004" ∨
    f.code = "HG-SICHTER-005" := by
  unfold markerFindings at hf
  simp only [List.mem_append] at hf
  rcases hf with (((h | h) | h) | h) | h
  · exact .inl (mem_marker001 h).1
  · exact .inr (.inl (mem_marker002 h).1)
  · exact .inr (.inr (.inl (mem_marker003 h).1))
  · exact .inr (.inr (.inr (.inl (mem_marker004 h).1)))
  · exact .inr (.inr (.inr (.inr (mem_marker005 h).1)))

theorem buildReport_fields {kvs : JObj} {now ip : String} {r : Report}
    (h : buildReport (.jobj kvs) now ip = some r) :
    ∃ fl, metaFilters kvs = some fl ∧
      r.findings = metaRules kvs fl (listFiles kvs) ++
        markerFindings (pathStrings (listFiles kvs)) ∧
      r.coverage_pct = (if pyIsNum (docGet kvs ["coverage", "coverage_pct"])
        then some (docGet kvs ["coverage", "coverage_pct"]) else none) ∧
      r.files_total = (if pyIsInt (docGet kvs ["meta", "total_files"])
        then some (docGet kvs ["meta", "total_files"]) else none) ∧
      r.uncertainty = uncertaintyOf (.jobj kvs) ∧
      r.generated_at = now ∧ r.input_path = ip := by
  cases hfl : metaFilters kvs with
  | none =>
    rw [buildReport, metaSanity, hfl] at h
    simp at h
  | some fl =>
    rw [buildReport, metaSanity, hfl] at h
    simp only [Option.map_some', Option.some_inj] at h
    subst h
    exact ⟨fl, rfl, rfl, rfl, rfl, rfl, rfl, rfl⟩

/-- C2: the claim says evaluation aborts exactly when the parsed root is not
a mapping.  The code disagrees: the document `\x7b"meta": 0\x7d` has a
mapping root, yet `build_report` aborts on it, because `_meta_sanity` reads
`doc.get("meta", \x7b\x7d).get("filters", \x7b\x7d)` without `_safe_get`,
raising an `AttributeError` when `meta` is present and not a dict.  The
spec's stated failure semantics (only non-mapping roots abort; malformed
fields degrade into findings) is the evident intent, so this is a code bug,
exhibited here by evaluating the embedded code at the failing input. -/
theorem buildReport_meta_nondict_aborts (now ip : String) :
    buildReport (.jobj [("meta", .jint 0)]) now ip = none ∧
      buildReport (.jarr []) now ip = none := ⟨rfl, rfl⟩

theorem pyClamp_nonneg (x : ℚ) : 0 ≤ pyMax 0 (pyMin 0.95 x) := by
  unfold pyMax pyMin
  split_ifs <;> linarith

theorem pyClamp_le (x : ℚ) : pyMax 0 (pyMin 0.95 x) ≤ 0.95 := by
  unfold pyMax pyMin
  split_ifs <;> linarith

theorem causes_default_ne_nil (d : String) (cs : List String) :
    (if cs.isEmpty then [d] else cs) ≠ [] := by
  split
  · simp
  · rename_i h
    simpa [List.isEmpty_iff] using h

/-- C3: for every input document, the uncertainty assessment has a score in
the closed interval [0, 0.95] and a causes sequence that is never empty. -/
theorem uncertainty_bounds_and_causes (doc : JVal) :
    0 ≤ (uncertaintyOf doc).score ∧ (uncertaintyOf doc).score ≤ 0.95 ∧
      (uncertaintyOf doc).causes ≠ [] :=
  ⟨pyClamp_nonneg _, pyClamp_le _, causes_default_ne_nil uncDefaultCause _⟩

set_option maxRecDepth 8000

theorem scoreChain_fff : scoreChain false false false =
    ⟨6485183463413514, -55⟩ := by decide

theorem scoreChain_fft : scoreChain false false true =
    ⟨5404319552844595, -54⟩ := by decide

theorem scoreChain_ftf : scoreChain false true false =
    ⟨4683743612465316, -54⟩ := by decide

theorem scoreChain_ftt : scoreChain false true true =
    ⟨6845471433603154, -54⟩ := by decide

theorem scoreChain_tff : scoreChain true false false =
    ⟨5044031582654956, -54⟩ := by decide

theorem scoreChain_tft : scoreChain true false true =
    ⟨7205759403792794, -54⟩ := by decide

theorem scoreChain_ttf : scoreChain true true false =
    ⟨6485183463413515, -54⟩ := by decide

theorem scoreChain_ttt : scoreChain true true true =
    ⟨8646911284551353, -54⟩ := by decide

theorem scoreChain_clamp_fix (b1 b2 b3 : Bool) :
    fmax dzero (fmin d095 (scoreChain b1 b2 b3)) = scoreChain b1 b2 b3 := by
  revert b1 b2 b3
  decide

theorem scoreChain_lower (b1 b2 b3 : Bool) :
    d018.toQ ≤ (scoreChain b1 b2 b3).toQ := by
  have h18 : d018 = ⟨6485183463413514, -55⟩ := by decide
  cases b1 <;> cases b2 <;> cases b3 <;>
    simp only [h18, scoreChain_fff, scoreChain_fft, scoreChain_ftf,
      scoreChain_ftt, scoreChain_tff, scoreChain_tft, scoreChain_ttf,
      scoreChain_ttt, FloatVal.toQ] <;>
    norm_num

theorem scoreChain_upper (b1 b2 b3 : Bool) :
    (scoreChain b1 b2 b3).toQ ≤ (scoreChain true true true).toQ := by
  cases b1 <;> cases b2 <;> cases b3 <;>
    simp only [scoreChain_fff, scoreChain_fft, scoreChain_ftf,
      scoreChain_ftt, scoreChain_tff, scoreChain_tft, scoreChain_ttf,
      scoreChain_ttt, FloatVal.toQ] <;>
    norm_num

/-- C10 counterexample: at a reachable document firing all three
increments (numeric coverage below 100, a truthy path filter, `plan_only`
true), the program's IEEE-754 double score is 8646911284551353·2^-54 =
0.48000000000000004…, strictly greater than 0.48, so the claimed interval
[0.18, 0.48] and the exact-sum equality are false of the program: the
interpreter's float accumulation of 0.18 + 0.10 + 0.08 + 0.12 overshoots
0.48 by one unit in the last place. -/
theorem uncertainty_score_float_counterexample :
    uncertaintyScoreF (.jobj [("coverage", .jobj [("coverage_pct",
        .jint 50)]), ("meta", .jobj [("filters", .jobj [("path_filter",
        .jstr "src")]), ("plan_only", .jbool true)])]) =
      ⟨8646911284551353, -54⟩ ∧
      0.48 < FloatVal.toQ ⟨8646911284551353, -54⟩ := by
  refine ⟨by decide, ?_⟩
  norm_num [FloatVal.toQ]

/-- C10, amended: under the interpreter's IEEE-754 double arithmetic the
uncertainty score is the float accumulation of the 0.18 baseline with the
subset of the increments 0.10, 0.08, 0.12 that fired, so it always lies
between the double 0.18 (= 0.17999999999999999…) and the all-increments
float sum (= 0.48000000000000004…, one ulp above 0.48), and the final
clamp into [0, 0.95] never changes the computed value. -/
theorem uncertainty_score_float_structure (doc : JVal) :
    uncertaintyScoreF doc = uncertaintyRawF doc ∧
      d018.toQ ≤ (uncertaintyRawF doc).toQ ∧
      (uncertaintyRawF doc).toQ ≤ (scoreChain true true true).toQ ∧
      ∃ b1 b2 b3 : Bool, uncertaintyRawF doc = scoreChain b1 b2 b3 :=
  ⟨scoreChain_clamp_fix (uncCond1 doc) (uncCond2 doc) (uncCond3 doc),
    scoreChain_lower (uncCond1 doc) (uncCond2 doc) (uncCond3 doc),
    scoreChain_upper (uncCond1 doc) (uncCond2 doc) (uncCond3 doc),
    uncCond1 doc, uncCond2 doc, uncCond3 doc, rfl⟩

/-- C5: the empty document evaluates successfully, its report has no
coverage percentage, and all five marker-absence findings fire, warn for the
orientation-anchor file and the tooling directory, info for the rest. -/
theorem emptyDoc_report (now ip : String) :
    ∃ r, buildReport (.jobj []) now ip = some r ∧ r.coverage_pct = none ∧
      (∃ f ∈ r.findings, f.code = "HG-SICHTER-001" ∧ f.severity = "warn") ∧
      (∃ f ∈ r.findings, f.code = "HG-SICHTER-002" ∧ f.severity = "warn") ∧
      (∃ f ∈ r.findings, f.code = "HG-SICHTER-003" ∧ f.severity = "info") ∧
      (∃ f ∈ r.findings, f.code = "HG-SICHTER-004" ∧ f.severity = "info") ∧
      (∃ f ∈ r.findings, f.code = "HG-SICHTER-005" ∧ f.severity = "info") := by
  obtain ⟨r, hr⟩ : ∃ r, buildReport (.jobj []) now ip = some r := ⟨_, rfl⟩
  obtain ⟨fl, hfl, hfind, hcov, -⟩ := buildReport_fields hr
  have hfl2 : some (JVal.jobj []) = some fl := hfl
  obtain rfl := Option.some.inj hfl2
  refine ⟨r, hr, ?_, ?_, ?_, ?_, ?_, ?_⟩
  · rw [hcov]
    rfl
  all_goals rw [hfind]
  all_goals decide

theorem isJStr_iff {v : JVal} {s : String} : isJStr v s = true ↔ v = .jstr s := by
  cases v <;> simp [isJStr]

theorem mem_metaRules_cases {kvs : JObj} {fl : JVal} {files : List JObj}
    {f : Finding} (hf : f ∈ metaRules kvs fl files) :
    f ∈ rule010 kvs ∨ f ∈ rule011 kvs ∨ f ∈ rule012 kvs ∨ f ∈ rule013 fl ∨
    f ∈ rule014 fl ∨ f ∈ rule015 files ∨ f ∈ rule016 kvs ∨ f ∈ rule017 kvs := by
  unfold metaRules at hf
  simp only [List.mem_append] at hf
  tauto

theorem rule010_pos {kvs : JObj}
    (h : ¬(docGet kvs ["meta", "contract"] = .jstr "wc-merge-agent" ∧
        docGet kvs ["meta", "contract_version"] = .jstr "v1")) :
    ∃ f, rule010 kvs = [f] ∧ f.code = "HG-SICHTER-010" ∧
      f.severity = "crit" := by
  have hcond : ¬((isJStr (docGet kvs ["meta", "contract"]) "wc-merge-agent" &&
      isJStr (docGet kvs ["meta", "contract_version"]) "v1") = true) := by
    simp only [Bool.and_eq_true, isJStr_iff]
    exact h
  unfold rule010
  dsimp only
  rw [if_neg hcond]
  exact ⟨_, rfl, rfl, rfl⟩

theorem rule010_neg {kvs : JObj}
    (h : docGet kvs ["meta", "contract"] = .jstr "wc-merge-agent" ∧
      docGet kvs ["meta", "contract_version"] = .jstr "v1") :
    rule010 kvs = [] := by
  have hcond : (isJStr (docGet kvs ["meta", "contract"]) "wc-merge-agent" &&
      isJStr (docGet kvs ["meta", "contract_version"]) "v1") = true := by
    simp only [Bool.and_eq_true, isJStr_iff]
    exact h
  unfold rule010
  dsimp only
  rw [if_pos hcond]

theorem rule011_pos {kvs : JObj} {q : ℚ}
    (hq : pyNumQ (docGet kvs ["coverage", "coverage_pct"]) = some q)
    (hlt : q < 95) :
    ∃ f, rule011 kvs = [f] ∧ f.code = "HG-SICHTER-011" ∧
      f.severity = "warn" := by
  unfold rule011
  dsimp only
  rw [hq]
  dsimp only
  rw [if_pos hlt]
  exact ⟨_, rfl, rfl, rfl⟩

theorem rule011_neg {kvs : JObj}
    (h : ∀ q, pyNumQ (docGet kvs ["coverage", "coverage_pct"]) = some q →
      ¬ q < 95) :
    rule011 kvs = [] := by
  unfold rule011
  dsimp only
  split
  · rename_i q hq
    rw [if_neg (h q hq)]
  · rfl

theorem rule015_pos {files : List JObj} (h : countDuplicates files ≠ []) :
    rule015 files = [{ severity := "crit", code := "HG-SICHTER-015",
                       title := "Doppelte Dateipfade im Merge",
                       detail := dupDetail (countDuplicates files) }] := by
  unfold rule015
  dsimp only
  rw [if_neg (by simpa [List.isEmpty_iff] using h)]

theorem countCode_markers_meta {paths : List String} {c : String}
    (h1 : c ≠ "HG-SICHTER-001") (h2 : c ≠ "HG-SICHTER-002")
    (h3 : c ≠ "HG-SICHTER-003") (h4 : c ≠ "HG-SICHTER-004")
    (h5 : c ≠ "HG-SICHTER-005") :
    countCode (markerFindings paths) c = 0 :=
  countCode_eq_zero fun f hf => by
    rcases mem_markerFindings_code hf with h | h | h | h | h <;> rw [h]
    · exact fun heq => h1 heq.symm
    · exact fun heq => h2 heq.symm
    · exact fun heq => h3 heq.symm
    · exact fun heq => h4 heq.symm
    · exact fun heq => h5 heq.symm

theorem countCode_metaRules_010 (kvs : JObj) (fl : JVal) (files : List JObj) :
    countCode (metaRules kvs fl files) "HG-SICHTER-010" =
      countCode (rule010 kvs) "HG-SICHTER-010" := by
  unfold metaRules
  simp only [countCode_append]
  have z1 : countCode (rule011 kvs) "HG-SICHTER-010" = 0 :=
    countCode_eq_zero fun f hf => by rw [(mem_rule011 hf).1]; decide
  have z2 : countCode (rule012 kvs) "HG-SICHTER-010" = 0 :=
    countCode_eq_zero fun f hf => by rw [(mem_rule012 hf).1]; decide
  have z3 : countCode (rule013 fl) "HG-SICHTER-010" = 0 :=
    countCode_eq_zero fun f hf => by rw [(mem_rule013 hf).1]; decide
  have z4 : countCode (rule014 fl) "HG-SICHTER-010" = 0 :=
    countCode_eq_zero fun f hf => by rw [(mem_rule014 hf).1]; decide
  have z5 : countCode (rule015 files) "HG-SICHTER-010" = 0 :=
    countCode_eq_zero fun f hf => by rw [(mem_rule015 hf).1]; decide
  have z6 : countCode (rule016 kvs) "HG-SICHTER-010" = 0 :=
    countCode_eq_zero fun f hf => by rw [(mem_rule016 hf).1]; decide
  have z7 : countCode (rule017 kvs) "HG-SICHTER-010" = 0 :=
    countCode_eq_zero fun f hf => by rw [(mem_rule017 hf).1]; decide
  omega

theorem countCode_metaRules_015 (kvs : JObj) (fl : JVal) (files : List JObj) :
    countCode (metaRules kvs fl files) "HG-SICHTER-015" =
      countCode (rule015 files) "HG-SICHTER-015" := by
  unfold metaRules
  simp only [countCode_append]
  have z1 : countCode (rule010 kvs) "HG-SICHTER-015" = 0 :=
    countCode_eq_zero fun f hf => by rw [(mem_rule010 hf).1]; decide
  have z2 : countCode (rule011 kvs) "HG-SICHTER-015" = 0 :=
    countCode_eq_zero fun f hf => by rw [(mem_rule011 hf).1]; decide
  have z3 : countCode (rule012 kvs) "HG-SICHTER-015" = 0 :=
    countCode_eq_zero fun f hf => by rw [(mem_rule012 hf).1]; decide
  have z4 : countCode (rule013 fl) "HG-SICHTER-015" = 0 :=
    countCode_eq_zero fun f hf => by rw [(mem_rule013 hf).1]; decide
  have z5 : countCode (rule014 fl) "HG-SICHTER-015" = 0 :=
    countCode_eq_zero fun f hf => by rw [(mem_rule014 hf).1]; decide
  have z6 : countCode (rule016 kvs) "HG-SICHTER-015" = 0 :=
    countCode_eq_zero fun f hf => by rw [(mem_rule016 hf).1]; decide
  have z7 : countCode (rule017 kvs) "HG-SICHTER-015" = 0 :=
    countCode_eq_zero fun f hf => by rw [(mem_rule017 hf).1]; decide
  omega

theorem findings_severity_of_code {kvs : JObj} {fl : JVal}
    {files : List JObj} {paths : List String} {f : Finding}
    (hf : f ∈ metaRules kvs fl files ++ markerFindings paths) :
    (f.code = "HG-SICHTER-010" → f.severity = "crit") ∧
    (f.code = "HG-SICHTER-011" → f.severity = "warn") ∧
    (f.code = "HG-SICHTER-015" → f.severity = "crit") := by
  rcases List.mem_append.mp hf with hm | hm
  · rcases mem_metaRules_cases hm with h | h | h | h | h | h | h | h
    · obtain ⟨hcode, hsev⟩ := mem_rule010 h
      refine ⟨?_, ?_, ?_⟩ <;> intro hc <;>
        first
          | exact hsev
          | exact absurd (hcode.symm.trans hc) (by decide)
    · obtain ⟨hcode, hsev⟩ := mem_rule011 h
      refine ⟨?_, ?_, ?_⟩ <;> intro hc <;>
        first
          | exact hsev
          | exact absurd (hcode.symm.trans hc) (by decide)
    · obtain ⟨hcode, hsev⟩ := mem_rule012 h
      refine ⟨?_, ?_, ?_⟩ <;> intro hc <;>
        first
          | exact hsev
          | exact absurd (hcode.symm.trans hc) (by decide)
    · obtain ⟨hcode, hsev⟩ := mem_rule013 h
      refine ⟨?_, ?_, ?_⟩ <;> intro hc <;>
        first
          | exact hsev
          | exact absurd (hcode.symm.trans hc) (by decide)
    · obtain ⟨hcode, hsev⟩ := mem_rule014 h
      refine ⟨?_, ?_, ?_⟩ <;> intro hc <;>
        first
          | exact hsev
          | exact absurd (hcode.symm.trans hc) (by decide)
    · obtain ⟨hcode, hsev⟩ := mem_rule015 h
      refine ⟨?_, ?_, ?_⟩ <;> intro hc <;>
        first
          | exact hsev
          | exact absurd (hcode.symm.trans hc) (by decide)
    · obtain ⟨hcode, hsev⟩ := mem_rule016 h
      refine ⟨?_, ?_, ?_⟩ <;> intro hc <;>
        first
          | exact hsev
          | exact absurd (hcode.symm.trans hc) (by decide)
    · obtain ⟨hcode, hsev⟩ := mem_rule017 h
      refine ⟨?_, ?_, ?_⟩ <;> intro hc <;>
        first
          | exact hsev
          | exact absurd (hcode.symm.trans hc) (by decide)
  · rcases mem_markerFindings_code hm with h | h | h | h | h <;>
      refine ⟨?_, ?_, ?_⟩ <;> intro hc <;>
      exact absurd (h.symm.trans hc) (by decide)

/-- C4: whenever the declared contract/contract_version pair differs from
the expected fixed pair wc-merge-agent/v1 (for instance
`meta.contract = "other"`), the produced findings contain exactly one
wrong-contract finding and it is crit, regardless of all other fields;
when the pair matches, no wrong-contract finding is emitted. -/
theorem wrong_contract_findings {kvs : JObj} {now ip : String} {r : Report}
    (h : buildReport (.jobj kvs) now ip = some r) :
    (¬(docGet kvs ["meta", "contract"] = .jstr "wc-merge-agent" ∧
        docGet kvs ["meta", "contract_version"] = .jstr "v1") →
      countCode r.findings "HG-SICHTER-010" = 1 ∧
        ∀ f ∈ r.findings, f.code = "HG-SICHTER-010" → f.severity = "crit") ∧
    ((docGet kvs ["meta", "contract"] = .jstr "wc-merge-agent" ∧
        docGet kvs ["meta", "contract_version"] = .jstr "v1") →
      countCode r.findings "HG-SICHTER-010" = 0) := by
  obtain ⟨fl, hfl, hfind, -⟩ := buildReport_fields h
  constructor
  · intro hne
    obtain ⟨f, hr010, hcode, hsev⟩ := rule010_pos hne
    constructor
    · rw [hfind, countCode_append, countCode_metaRules_010,
        countCode_markers_meta (by decide) (by decide) (by decide)
          (by decide) (by decide), hr010]
      simp [countCode, hcode]
    · intro f2 hf2 hc2
      rw [hfind] at hf2
      exact (findings_severity_of_code hf2).1 hc2
  · intro heq
    rw [hfind, countCode_append, countCode_metaRules_010,
      countCode_markers_meta (by decide) (by decide) (by decide)
        (by decide) (by decide), rule010_neg heq]
    simp [countCode]

/-- Witness for C4 at the concrete document with `meta.contract = "other"`. -/
theorem wrong_contract_findings_witness :
    ∃ r, buildReport (.jobj [("meta", .jobj [("contract", .jstr "other")])])
        "t4" "i4" = some r ∧ countCode r.findings "HG-SICHTER-010" = 1 := by
  refine ⟨_, rfl, ?_⟩
  refine ((@wrong_contract_findings
    [("meta", .jobj [("contract", .jstr "other")])] "t4" "i4" _ rfl).1 ?_).1
  rintro ⟨h1, -⟩
  have h1' : JVal.jstr "other" = JVal.jstr "wc-merge-agent" := h1
  exact absurd (JVal.jstr.inj h1') (by decide)

/-- C6: a present numeric coverage percentage below 95 yields the warn
low-coverage finding; otherwise no low-coverage finding is emitted. -/
theorem low_coverage_finding {kvs : JObj} {now ip : String} {r : Report}
    (h : buildReport (.jobj kvs) now ip = some r) :
    ((∃ q, pyNumQ (docGet kvs ["coverage", "coverage_pct"]) = some q ∧
        q < 95) →
      ∃ f ∈ r.findings, f.code = "HG-SICHTER-011" ∧ f.severity = "warn") ∧
    ((¬∃ q, pyNumQ (docGet kvs ["coverage", "coverage_pct"]) = some q ∧
        q < 95) →
      ∀ f ∈ r.findings, f.code ≠ "HG-SICHTER-011") := by
  obtain ⟨fl, hfl, hfind, -⟩ := buildReport_fields h
  constructor
  · rintro ⟨q, hq, hlt⟩
    obtain ⟨f, hr011, hcode, hsev⟩ := rule011_pos hq hlt
    refine ⟨f, ?_, hcode, hsev⟩
    rw [hfind]
    refine List.mem_append.mpr (.inl ?_)
    unfold metaRules
    simp [List.mem_append, hr011]
  · intro hno f2 hf2
    rw [hfind] at hf2
    rcases List.mem_append.mp hf2 with hm | hm
    · rcases mem_metaRules_cases hm with h' | h' | h' | h' | h' | h' | h' | h'
      · rw [(mem_rule010 h').1]
        decide
      · rw [rule011_neg (fun q hq hlt => hno ⟨q, hq, hlt⟩)] at h'
        cases h'
      · rw [(mem_rule012 h').1]
        decide
      · rw [(mem_rule013 h').1]
        decide
      · rw [(mem_rule014 h').1]
        decide
      · rw [(mem_rule015 h').1]
        decide
      · rw [(mem_rule016 h').1]
        decide
      · rw [(mem_rule017 h').1]
        decide
    · rcases mem_markerFindings_code hm with h' | h' | h' | h' | h' <;>
        rw [h'] <;> decide

/-- Witness for C6 at a concrete document with coverage 50. -/
theorem low_coverage_finding_witness :
    ∃ r, buildReport
        (.jobj [("coverage", .jobj [("coverage_pct", .jint 50)])])
        "t6" "i6" = some r ∧
      ∃ f ∈ r.findings, f.code = "HG-SICHTER-011" ∧ f.severity = "warn" := by
  refine ⟨_, rfl, ?_⟩
  exact (@low_coverage_finding
    [("coverage", .jobj [("coverage_pct", .jint 50)])] "t6" "i6" _ rfl).1
    ⟨((50 : Int) : ℚ), rfl, by norm_num⟩

/-- C7: the findings sequence of the report is the metadata-sanity findings
in their fixed rule order followed by the expected-marker findings in their
fixed rule order; each sub-rule is a function of the raw document (its file
list / path set) alone, with no other rule's output as input. -/
theorem findings_concatenation {kvs : JObj} {now ip : String} {r : Report}
    (h : buildReport (.jobj kvs) now ip = some r) :
    ∃ fl, metaFilters kvs = some fl ∧
      metaSanity kvs (listFiles kvs) =
        some (metaRules kvs fl (listFiles kvs)) ∧
      r.findings = metaRules kvs fl (listFiles kvs) ++
        markerFindings (pathStrings (listFiles kvs)) ∧
      metaRules kvs fl (listFiles kvs) =
        rule010 kvs ++ rule011 kvs ++ rule012 kvs ++ rule013 fl ++
          rule014 fl ++ rule015 (listFiles kvs) ++ rule016 kvs ++
          rule017 kvs ∧
      markerFindings (pathStrings (listFiles kvs)) =
        marker001 (pathStrings (listFiles kvs)) ++
          marker002 (pathStrings (listFiles kvs)) ++
          marker003 (pathStrings (listFiles kvs)) ++
          marker004 (pathStrings (listFiles kvs)) ++
          marker005 (pathStrings (listFiles kvs)) := by
  obtain ⟨fl, hfl, hfind, -⟩ := buildReport_fields h
  refine ⟨fl, hfl, ?_, hfind, rfl, rfl⟩
  rw [metaSanity, hfl]
  rfl

/-- Witness for C7 at the empty document. -/
theorem findings_concatenation_witness :
    ∃ r, buildReport (.jobj ([] : JObj)) "t7" "i7" = some r ∧
      ∃ fl, metaFilters ([] : JObj) = some fl ∧
        metaSanity ([] : JObj) (listFiles ([] : JObj)) =
          some (metaRules ([] : JObj) fl (listFiles ([] : JObj))) ∧
        r.findings = metaRules ([] : JObj) fl (listFiles ([] : JObj)) ++
          markerFindings (pathStrings (listFiles ([] : JObj))) := by
  refine ⟨_, rfl, ?_⟩
  obtain ⟨fl, h1, h2, h3, -⟩ :=
    @findings_concatenation ([] : JObj) "t7" "i7" _ rfl
  exact ⟨fl, h1, h2, h3⟩

theorem hasPre_wgx (paths : List String) :
    hasPre paths ".wgx/" =
      paths.any fun p => strStartsWith p ".wgx/" := by
  unfold hasPre
  rw [show rstripSlash ".wgx/" ++ "/" = ".wgx/" from by decide]

theorem hasPre_aictx (paths : List String) :
    hasPre paths ".ai-context.yml/" =
      paths.any fun p => strStartsWith p ".ai-context.yml/" := by
  unfold hasPre
  rw [show rstripSlash ".ai-context.yml/" ++ "/" = ".ai-context.yml/" from
    by decide]

theorem marker001_ne_nil_iff (paths : List String) :
    marker001 paths ≠ [] ↔
      (".ai-context.yml" ∉ paths ∧
        hasPre paths ".ai-context.yml/" = false) := by
  unfold marker001
  split
  · rename_i hcond
    exact iff_of_true (by simp)
      ⟨hcond.1, Bool.eq_false_iff.mpr hcond.2⟩
  · rename_i hcond
    refine iff_of_false (by simp) ?_
    rintro ⟨hmem, hfalse⟩
    exact hcond ⟨hmem, by simp [hfalse]⟩

theorem marker002_ne_nil_iff (paths : List String) :
    marker002 paths ≠ [] ↔ hasPre paths ".wgx/" = false := by
  unfold marker002
  split
  · rename_i hcond
    exact iff_of_true (by simp) (Bool.eq_false_iff.mpr hcond)
  · rename_i hcond
    refine iff_of_false (by simp) ?_
    intro hfalse
    exact hcond (by simp [hfalse])

theorem exists_code_001_iff (paths : List String) :
    (∃ f ∈ markerFindings paths, f.code = "HG-SICHTER-001") ↔
      marker001 paths ≠ [] := by
  constructor
  · rintro ⟨f, hf, hcode⟩
    intro hnil
    unfold markerFindings at hf
    simp only [List.mem_append] at hf
    rcases hf with (((h | h) | h) | h) | h
    · rw [hnil] at h
      cases h
    · exact absurd ((mem_marker002 h).1.symm.trans hcode) (by decide)
    · exact absurd ((mem_marker003 h).1.symm.trans hcode) (by decide)
    · exact absurd ((mem_marker004 h).1.symm.trans hcode) (by decide)
    · exact absurd ((mem_marker005 h).1.symm.trans hcode) (by decide)
  · intro hne
    obtain ⟨f, hf⟩ := List.exists_mem_of_ne_nil _ hne
    refine ⟨f, ?_, (mem_marker001 hf).1⟩
    unfold markerFindings
    simp only [List.mem_append]
    tauto

theorem exists_code_002_iff (paths : List String) :
    (∃ f ∈ markerFindings paths, f.code = "HG-SICHTER-002") ↔
      marker002 paths ≠ [] := by
  constructor
  · rintro ⟨f, hf, hcode⟩
    intro hnil
    unfold markerFindings at hf
    simp only [List.mem_append] at hf
    rcases hf with (((h | h) | h) | h) | h
    · exact absurd ((mem_marker001 h).1.symm.trans hcode) (by decide)
    · rw [hnil] at h
      cases h
    · exact absurd ((mem_marker003 h).1.symm.trans hcode) (by decide)
    · exact absurd ((mem_marker004 h).1.symm.trans hcode) (by decide)
    · exact absurd ((mem_marker005 h).1.symm.trans hcode) (by decide)
  · intro hne
    obtain ⟨f, hf⟩ := List.exists_mem_of_ne_nil _ hne
    refine ⟨f, ?_, (mem_marker002 hf).1⟩
    unfold markerFindings
    simp only [List.mem_append]
    tauto

/-- C8: the `.wgx` directory marker is satisfied only by a path starting
with `".wgx/"` — the exact path `".wgx"` alone still triggers the absence
finding — while the `.ai-context.yml` file marker is satisfied by an exact
match or by a `".ai-context.yml/"` prefix match. -/
theorem marker_asymmetry (paths : List String) :
    ((∃ f ∈ markerFindings paths, f.code = "HG-SICHTER-002") ↔
      ¬∃ p ∈ paths, strStartsWith p ".wgx/" = true) ∧
    (∃ f ∈ markerFindings [".wgx"], f.code = "HG-SICHTER-002") ∧
    ((∃ f ∈ markerFindings paths, f.code = "HG-SICHTER-001") ↔
      ¬(".ai-context.yml" ∈ paths ∨
        ∃ p ∈ paths, strStartsWith p ".ai-context.yml/" = true)) := by
  refine ⟨?_, by decide, ?_⟩
  · rw [exists_code_002_iff, marker002_ne_nil_iff, hasPre_wgx]
    simp [List.any_eq_true]
  · rw [exists_code_001_iff, marker001_ne_nil_iff, hasPre_aictx]
    simp [List.any_eq_true]

/-- C1: a document with two or more file records sharing a path value
yields exactly one duplicate-path finding, crit, whose detail text is the
fixed header followed by the duplicated paths sorted lexicographically,
capped at 50 entries with an ellipsis marker when more exist; the listed
duplicates are exactly the paths occurring more than once, and when at most
50 exist every one of them is listed. -/
theorem duplicate_paths_finding {kvs : JObj} {now ip : String} {r : Report}
    (h : buildReport (.jobj kvs) now ip = some r)
    (hdup : ∃ p, 2 ≤ (pathStrings (listFiles kvs)).count p) :
    countCode r.findings "HG-SICHTER-015" = 1 ∧
    (∃ f ∈ r.findings, f.code = "HG-SICHTER-015" ∧ f.severity = "crit" ∧
      f.detail = dupDetail (countDuplicates (listFiles kvs))) ∧
    List.Sorted strLe (countDuplicates (listFiles kvs)) ∧
    (∀ p, p ∈ countDuplicates (listFiles kvs) ↔
      2 ≤ (pathStrings (listFiles kvs)).count p) ∧
    ((countDuplicates (listFiles kvs)).length ≤ 50 →
      ∀ p, 2 ≤ (pathStrings (listFiles kvs)).count p →
        p ∈ (countDuplicates (listFiles kvs)).take 50) := by
  obtain ⟨fl, hfl, hfind, -⟩ := buildReport_fields h
  have hne : countDuplicates (listFiles kvs) ≠ [] := by
    obtain ⟨p, hp⟩ := hdup
    intro hnil
    have hmem := (mem_countDuplicates (listFiles kvs)).mpr hp
    rw [hnil] at hmem
    cases hmem
  have h15 := rule015_pos hne
  refine ⟨?_, ?_, sorted_countDuplicates _,
    fun p => @mem_countDuplicates p (listFiles kvs), ?_⟩
  · rw [hfind, countCode_append, countCode_metaRules_015,
      countCode_markers_meta (by decide) (by decide) (by decide)
        (by decide) (by decide), h15]
    simp [countCode]
  · refine ⟨⟨"crit", "HG-SICHTER-015", "Doppelte Dateipfade im Merge",
      dupDetail (countDuplicates (listFiles kvs))⟩, ?_, rfl, rfl, rfl⟩
    rw [hfind]
    refine List.mem_append.mpr (.inl ?_)
    unfold metaRules
    simp [h15]
  · intro hlen p hp
    rw [List.take_of_length_le hlen]
    exact (mem_countDuplicates _).mpr hp

/-- Witness for C1 at a concrete document with the path `b` occurring
twice among the file records. -/
theorem duplicate_paths_finding_witness :
    ∃ r, buildReport (.jobj [("files", .jarr [.jobj [("path", .jstr "b")],
        .jobj [("path", .jstr "a")], .jobj [("path", .jstr "b")]])])
        "t1" "i1" = some r ∧ countCode r.findings "HG-SICHTER-015" = 1 := by
  refine ⟨_, rfl, ?_⟩
  exact (@duplicate_paths_finding
    [("files", .jarr [.jobj [("path", .jstr "b")],
      .jobj [("path", .jstr "a")], .jobj [("path", .jstr "b")]])]
    "t1" "i1" _ rfl ⟨"b", by decide⟩).1

theorem optFromJson_of_ne {v : JVal} (h : v ≠ .jnull) :
    optFromJson v = some (some v) := by
  cases v
  · exact absurd rfl h
  all_goals rfl

theorem findingFromJson_toJson (f : Finding) :
    findingFromJson (findingToJson f) = some f := by
  obtain ⟨s, c, t, d⟩ := f
  rfl

theorem mapM_findingFromJson (fs : List Finding) :
    List.mapM findingFromJson (fs.map findingToJson) = some fs := by
  induction fs with
  | nil => rfl
  | cons f fs ih =>
    rw [List.map_cons, List.mapM_cons, findingFromJson_toJson, ih]
    rfl

theorem mapM_strFromJson (cs : List String) :
    List.mapM strFromJson (cs.map JVal.jstr) = some cs := by
  induction cs with
  | nil => rfl
  | cons c cs ih =>
    rw [List.map_cons, List.mapM_cons]
    rw [show strFromJson (JVal.jstr c) = some c from rfl, ih]
    rfl

theorem uncertaintyFromJson_toJson (u : Uncertainty) :
    uncertaintyFromJson (uncertaintyToJson u) = some u := by
  obtain ⟨q, cs, nt⟩ := u
  have key : uncertaintyFromJson (uncertaintyToJson ⟨q, cs, nt⟩) =
      (List.mapM strFromJson (cs.map JVal.jstr)).bind fun cs2 =>
        some ⟨q, cs2, nt⟩ := rfl
  rw [key, mapM_strFromJson]
  rfl

theorem reportFromJson_toJson (ga ag ip : String) (me : JObj) (sc : String)
    (cov ft : Option JVal) (fs : List Finding) (un : Uncertainty)
    (hcov : cov ≠ some .jnull) (hft : ft ≠ some .jnull) :
    reportFromJson (reportToJson ⟨ga, ag, ip, me, sc, cov, ft, fs, un⟩) =
      some ⟨ga, ag, ip, me, sc, cov, ft, fs, un⟩ := by
  have key : reportFromJson (reportToJson ⟨ga, ag, ip, me, sc, cov, ft,
      fs, un⟩) =
      (optFromJson (cov.getD .jnull)).bind fun cov2 =>
        (optFromJson (ft.getD .jnull)).bind fun ft2 =>
          (List.mapM findingFromJson (fs.map findingToJson)).bind fun fs2 =>
            (uncertaintyFromJson (uncertaintyToJson un)).bind fun un2 =>
              some ⟨ga, ag, ip, me, sc, cov2, ft2, fs2, un2⟩ := rfl
  have hcov2 : optFromJson (cov.getD .jnull) = some cov := by
    cases cov with
    | none => rfl
    | some v =>
      refine optFromJson_of_ne fun hv => ?_
      have hv2 : v = JVal.jnull := hv
      exact hcov (by rw [hv2])
  have hft2 : optFromJson (ft.getD .jnull) = some ft := by
    cases ft with
    | none => rfl
    | some v =>
      refine optFromJson_of_ne fun hv => ?_
      have hv2 : v = JVal.jnull := hv
      exact hft (by rw [hv2])
  rw [key, hcov2, Option.some_bind, hft2, Option.some_bind,
    mapM_findingFromJson, Option.some_bind, uncertaintyFromJson_toJson,
    Option.some_bind]

/-- C9: serializing a report produced by evaluation into the structured-data
mirror and parsing the mirror back reconstructs every field of the report. -/
theorem report_roundtrip {kvs : JObj} {now ip : String} {r : Report}
    (h : buildReport (.jobj kvs) now ip = some r) :
    reportFromJson (reportToJson r) = some r := by
  obtain ⟨fl, hfl, hfind, hcov, hft, -⟩ := buildReport_fields h
  obtain ⟨ga, ag, ip2, me, sc, cov, ft, fs, un⟩ := r
  apply reportFromJson_toJson
  · intro heq
    have hcov2 : cov = some (docGet kvs ["coverage", "coverage_pct"]) ∧
        pyIsNum (docGet kvs ["coverage", "coverage_pct"]) = true ∨
        cov = none := by
      dsimp only at hcov
      split at hcov
      · exact .inl ⟨hcov, by assumption⟩
      · exact .inr hcov
    rcases hcov2 with ⟨hceq, hnum⟩ | hceq
    · have heq2 : docGet kvs ["coverage", "coverage_pct"] = .jnull := by
        have := hceq.symm.trans heq
        exact Option.some.inj this
      rw [heq2] at hnum
      cases hnum
    · rw [hceq] at heq
      cases heq
  · intro heq
    have hft2 : ft = some (docGet kvs ["meta", "total_files"]) ∧
        pyIsInt (docGet kvs ["meta", "total_files"]) = true ∨
        ft = none := by
      dsimp only at hft
      split at hft
      · exact .inl ⟨hft, by assumption⟩
      · exact .inr hft
    rcases hft2 with ⟨hfeq, hnum⟩ | hfeq
    · have heq2 : docGet kvs ["meta", "total_files"] = .jnull := by
        have := hfeq.symm.trans heq
        exact Option.some.inj this
      rw [heq2] at hnum
      cases hnum
    · rw [hfeq] at heq
      cases heq

/-- Witness for C9 at the empty document. -/
theorem report_roundtrip_witness :
    ∃ r, buildReport (.jobj ([] : JObj)) "t9" "i9" = some r ∧
      reportFromJson (reportToJson r) = some r :=
  ⟨_, rfl, @report_roundtrip [] "t9" "i9" _ rfl⟩

end Heimgeist
